import Mathlib

/-!
Verification development for the ORB_SLAM2-based simulatorMapping engine.
The repository sources provide the orchestrator header (slam/include/System.h);
the component implementations (Tracking, Map, KeyFrameDatabase, LocalMapping,
LoopClosing) are declared there and specified in spec.md.  This file gives a
shallow embedding of the data model and the operations, and proves the
specified properties about them.
-/

namespace ORB_SLAM2

/-- A camera pose: a 4 x 4 homogeneous rigid transform, row-major.
An absent pose (tracking failure) is represented by Option.none, never by a
zero matrix. -/
abbrev Pose := List (List Int)

/-- The all-zero 4 x 4 matrix: the "zero pose" that the interface must never
use to signal failure. -/
def zeroPose : Pose := [[0,0,0,0],[0,0,0,0],[0,0,0,0],[0,0,0,0]]

/-- Modelled from the spec: the KeyFrame class is not under the provided
sources (System.h only forward-declares it).  A keyframe is an
immutable-after-insertion snapshot: an id, a visual-word summary, and the set
of observed landmark ids (its observation set).  Pose and feature payload are
irrelevant to the properties below and omitted. -/
structure Keyframe where
  id : Nat
  words : List Nat
  obs : List Nat
deriving DecidableEq

/-- Modelled from the spec: the MapPoint (Landmark) class is not under the
provided sources.  A landmark holds an id and the back-reference set of
observing keyframe ids. -/
structure Landmark where
  id : Nat
  observers : List Nat
deriving DecidableEq

/-- Modelled from the spec: the Map class is not under the provided sources
(System.h holds only the member pointer mpMap).  The Map owns the full
keyframe and landmark collections, the covisibility edges, and a
monotonically increasing change index bumped on every structural mutation. -/
structure Map where
  keyframes : List Keyframe
  landmarks : List Landmark
  covisEdges : List (Nat × Nat)
  changeIndex : Nat
deriving DecidableEq

/-- The post-construction (empty) Map. -/
def emptyMap : Map := ⟨[], [], [], 0⟩

/-- Modelled from the spec: the KeyFrameDatabase class (the
PlaceRecognitionIndex) is not under the provided sources (System.h holds only
the member pointer mpKeyFrameDatabase).  It is an inverted index from
visual-word id to the keyframe ids containing that word. -/
structure KeyFrameDatabase where
  buckets : List (Nat × List Nat)
deriving DecidableEq

/-- The post-construction (empty) index. -/
def KeyFrameDatabase.empty : KeyFrameDatabase := ⟨[]⟩

/-- The bucket of keyframe ids stored for a visual word (empty when the word
has no bucket yet). -/
def KeyFrameDatabase.bucketOf (db : KeyFrameDatabase) (w : Nat) : List Nat :=
  match db.buckets.find? (fun p => p.1 = w) with
  | some p => p.2
  | none => []

/-- Insert a keyframe id into the bucket of one visual word, creating the
bucket when absent. -/
def insertIntoBucket (w kid : Nat) : List (Nat × List Nat) → List (Nat × List Nat)
  | [] => [(w, [kid])]
  | p :: rest => if p.1 = w then (p.1, kid :: p.2) :: rest else p :: insertIntoBucket w kid rest

/-- Modelled from the spec: KeyFrameDatabase.add inserts the keyframe into
every visual-word bucket it contributes to. -/
def KeyFrameDatabase.add (db : KeyFrameDatabase) (kf : Keyframe) : KeyFrameDatabase :=
  ⟨kf.words.foldl (fun bs w => insertIntoBucket w kf.id bs) db.buckets⟩

/-- Modelled from the spec: KeyFrameDatabase.erase removes the keyframe from
all buckets. -/
def KeyFrameDatabase.erase (db : KeyFrameDatabase) (kf : Keyframe) : KeyFrameDatabase :=
  ⟨db.buckets.map (fun p => (p.1, p.2.filter (fun k => k ≠ kf.id)))⟩

/-- The number of distinct visual words of the query that a given keyframe id
shares with the index (common-word count, the similarity score used for
ranking candidates). -/
def KeyFrameDatabase.sharedWords (db : KeyFrameDatabase) (ws : List Nat) (kid : Nat) : Nat :=
  (ws.dedup.filter (fun w => kid ∈ db.bucketOf w)).length

/-- All keyframe ids appearing in a bucket of one of the query words. -/
def KeyFrameDatabase.candidateIds (db : KeyFrameDatabase) (ws : List Nat) : List Nat :=
  (ws.foldr (fun w acc => db.bucketOf w ++ acc) []).dedup

/-- Insert a scored candidate into a list kept sorted by descending score. -/
def insertRanked (x : Nat × Nat) : List (Nat × Nat) → List (Nat × Nat)
  | [] => [x]
  | y :: ys => if y.2 ≤ x.2 then x :: y :: ys else y :: insertRanked x ys

/-- Sort scored candidates by descending score (insertion sort). -/
def rankDesc : List (Nat × Nat) → List (Nat × Nat)
  | [] => []
  | y :: ys => insertRanked y (rankDesc ys)

/-- Modelled from the spec: KeyFrameDatabase.DetectLoopCandidates is not
under the provided sources.  It returns the keyframes sharing at least
minCommonWords common visual words with the query, excluding the members of
excludeSet, ranked by similarity (common-word count). -/
def KeyFrameDatabase.DetectLoopCandidates (db : KeyFrameDatabase) (kf : Keyframe)
    (excludeSet : List Nat) (minCommonWords : Nat) : List Nat :=
  (rankDesc ((db.candidateIds kf.words).filterMap (fun kid =>
    if kid ∉ excludeSet ∧ minCommonWords ≤ db.sharedWords kf.words kid then
      some (kid, db.sharedWords kf.words kid)
    else none))).map Prod.fst

/-- Retarget one observation list during a Replace merge: every occurrence of
the old landmark id becomes the new id, and duplicates are removed so that no
keyframe ends up with a duplicate observation. -/
def replaceObs (oldId newId : Nat) (obs : List Nat) : List Nat :=
  (obs.map (fun x => if x = oldId then newId else x)).dedup

/-- The observer set recorded for a landmark id (empty when the landmark is
not in the Map). -/
def Map.observersOf (m : Map) (lid : Nat) : List Nat :=
  match m.landmarks.find? (fun lm => lm.id = lid) with
  | some lm => lm.observers
  | none => []

/-- Modelled from the spec: the Map Replace(old, new) merge is not under the
provided sources.  It removes the old landmark entirely, retargets every
observer of old to new preserving no duplicate observations per keyframe, and
merges the old observer set into the new landmark; it bumps the change
index. -/
def Map.Replace (m : Map) (oldId newId : Nat) : Map :=
  { m with
    landmarks := (m.landmarks.filter (fun lm => lm.id ≠ oldId)).map
      (fun lm => if lm.id = newId then
          { lm with observers := (lm.observers ++ m.observersOf oldId).dedup }
        else lm),
    keyframes := m.keyframes.map (fun kf => { kf with obs := replaceObs oldId newId kf.obs }),
    changeIndex := m.changeIndex + 1 }

/-- Modelled from the spec: Map keyframe insertion is not under the provided
sources.  Inserting a keyframe appends it, adds covisibility edges to every
existing keyframe sharing an observed landmark, registers the new keyframe in
the observer set of each landmark it observes, and bumps the change index. -/
def Map.insertKeyFrame (m : Map) (kf : Keyframe) : Map :=
  { m with
    keyframes := m.keyframes ++ [kf],
    landmarks := m.landmarks.map (fun lm =>
      if lm.id ∈ kf.obs then { lm with observers := lm.observers ++ [kf.id] } else lm),
    covisEdges := m.covisEdges ++
      ((m.keyframes.filter (fun q => q.obs.any (fun l => l ∈ kf.obs))).map (fun q => (q.id, kf.id))),
    changeIndex := m.changeIndex + 1 }

/-- Modelled from the spec: the persisted map is a versioned snapshot of the
Map full graph - keyframes, landmarks, covisibility edges. -/
structure MapSnapshot where
  version : Nat
  kfs : List Keyframe
  lms : List Landmark
  covis : List (Nat × Nat)
deriving DecidableEq

/-- The current version of the persisted-map format. -/
def mapFormatVersion : Nat := 1

/-- Modelled from the spec: Map Serialize produces a self-contained versioned
snapshot of the full graph. -/
def Map.Serialize (m : Map) : MapSnapshot :=
  ⟨mapFormatVersion, m.keyframes, m.landmarks, m.covisEdges⟩

/-- Rebuild the PlaceRecognitionIndex from scratch from a keyframe
collection, as Deserialize must do since the index is not persisted inline. -/
def rebuildDatabase (kfs : List Keyframe) : KeyFrameDatabase :=
  kfs.foldl (fun db kf => db.add kf) KeyFrameDatabase.empty

/-- Modelled from the spec: Map Deserialize rebuilds the full structure from
a snapshot and reconstructs the PlaceRecognitionIndex from scratch; a
version-incompatible snapshot fails the load explicitly (none) rather than
yielding a partially reconstructed Map. -/
def Map.Deserialize (snap : MapSnapshot) : Option (Map × KeyFrameDatabase) :=
  if snap.version = mapFormatVersion then
    some (⟨snap.kfs, snap.lms, snap.covis, 0⟩, rebuildDatabase snap.kfs)
  else none

namespace Tracking

/-- The Tracker per-frame state machine states of spec section 4.1. -/
inductive State
  | NOT_INITIALIZED
  | OK
  | LOST
deriving DecidableEq

end Tracking

/-- Modelled from the spec: the Frame is the ephemeral per-call unit; the
external oracles (feature extraction, matching, two-view initialization,
pose-from-points relocalization, keyframe heuristics) are outside the core,
so their outcomes for this frame are carried as fields: initOk is whether
initialization would succeed from NOT_INITIALIZED, trackOk whether matching
stays above the tracking threshold from OK, relocOk whether relocalization
succeeds from LOST, pose the pose the estimation oracle yields, needKeyframe
the keyframe-insertion heuristic decision, and newKeyframe the keyframe that
would be constructed. -/
structure Frame where
  words : List Nat
  initOk : Bool
  trackOk : Bool
  relocOk : Bool
  pose : Pose
  needKeyframe : Bool
  newKeyframe : Keyframe
deriving DecidableEq

/-- Modelled from the spec: the Tracking per-frame state machine of section
4.1.  From NOT_INITIALIZED a successful initialization moves to OK; from OK a
matching failure moves to LOST; from LOST a successful relocalization returns
to OK.  A successful invocation returns the estimated pose, a failed one an
explicit empty result (none), never a zero pose and never a hard failure. -/
def Tracking.step : Tracking.State → Frame → Tracking.State × Option Pose
  | .NOT_INITIALIZED, f =>
      if f.initOk then (.OK, some f.pose) else (.NOT_INITIALIZED, none)
  | .OK, f =>
      if f.trackOk then (.OK, some f.pose) else (.LOST, none)
  | .LOST, f =>
      if f.relocOk then (.OK, some f.pose) else (.LOST, none)

/-- Whether the tracking oracle fails for this frame in a given state
(insufficient matches, failed initialization or relocalization). -/
def trackFails (st : Tracking.State) (f : Frame) : Bool :=
  match st with
  | .NOT_INITIALIZED => !f.initOk
  | .OK => !f.trackOk
  | .LOST => !f.relocOk

/-- Modelled from the spec: the System orchestrator state.  System.h declares
the members; the owned components (Map, KeyFrameDatabase, Tracking state) and
the flags mbReset, mbActivateLocalizationMode, mbDeactivateLocalizationMode
and shutdown_requested are the header fields, mbOnlyTracking is the
Tracker localization-only mode flag, lmQueue and lcQueue are the LocalMapper
and LoopCloser input queues, and the stop/finish pairs model each background
loop's cooperative stop and finish protocol. -/
structure System where
  mpMap : Map
  mpKeyFrameDatabase : KeyFrameDatabase
  trackState : Tracking.State
  mbOnlyTracking : Bool
  mbReset : Bool
  mbActivateLocalizationMode : Bool
  mbDeactivateLocalizationMode : Bool
  lmQueue : List Keyframe
  lcQueue : List Keyframe
  lmStopRequested : Bool
  lmStopped : Bool
  lmFinishRequested : Bool
  lmFinished : Bool
  lcFinishRequested : Bool
  lcFinished : Bool
  shutdown_requested : Bool
deriving DecidableEq

/-- The post-construction System state: empty Map, empty
PlaceRecognitionIndex, Tracker NOT_INITIALIZED, all flags clear, queues
empty. -/
def System.init : System :=
  { mpMap := emptyMap
    mpKeyFrameDatabase := KeyFrameDatabase.empty
    trackState := .NOT_INITIALIZED
    mbOnlyTracking := false
    mbReset := false
    mbActivateLocalizationMode := false
    mbDeactivateLocalizationMode := false
    lmQueue := []
    lcQueue := []
    lmStopRequested := false
    lmStopped := false
    lmFinishRequested := false
    lmFinished := false
    lcFinishRequested := false
    lcFinished := false
    shutdown_requested := false }

/-- Modelled from the spec: System.ActivateLocalizationMode (System.h line
106) only records the request as a flag; it is applied cooperatively at the
next safe point, not immediately. -/
def System.ActivateLocalizationMode (s : System) : System :=
  { s with mbActivateLocalizationMode := true }

/-- Modelled from the spec: System.DeactivateLocalizationMode (System.h line
109) only records the request as a flag. -/
def System.DeactivateLocalizationMode (s : System) : System :=
  { s with mbDeactivateLocalizationMode := true }

/-- Modelled from the spec: System.Reset (System.h line 112) only records the
reset request as the mbReset flag; it is observed at the next frame
boundary. -/
def System.Reset (s : System) : System :=
  { s with mbReset := true }

/-- Modelled from the spec: the pending mode-switch flags are consumed at the
frame boundary.  Activating localization-only mode stops the LocalMapper
(map building) and sets the Tracker localization-only flag; deactivating
releases the LocalMapper and clears the flag. -/
def System.applyModeChange (s : System) : System :=
  let s1 :=
    if s.mbActivateLocalizationMode then
      { s with mbOnlyTracking := true, lmStopRequested := true, lmStopped := true,
               mbActivateLocalizationMode := false }
    else s
  if s1.mbDeactivateLocalizationMode then
    { s1 with mbOnlyTracking := false, lmStopRequested := false, lmStopped := false,
              mbDeactivateLocalizationMode := false }
  else s1

/-- Modelled from the spec: a pending reset request is observed at the frame
boundary; it clears the Map and the PlaceRecognitionIndex, empties the
pipeline queues, and moves the Tracker to NOT_INITIALIZED from any state. -/
def System.applyReset (s : System) : System :=
  if s.mbReset then
    { s with mpMap := emptyMap, mpKeyFrameDatabase := KeyFrameDatabase.empty,
             trackState := .NOT_INITIALIZED, lmQueue := [], lcQueue := [],
             mbReset := false }
  else s

/-- Modelled from the spec: one Tracker invocation (section 4.1).  It runs
the state machine; on success it returns the estimated pose and, when the
keyframe heuristic fires and localization-only mode is off, constructs a
keyframe and pushes it (non-blocking, FIFO) onto the LocalMapper input
queue; on failure it returns the explicit empty result.  The Tracker never
mutates the Map keyframe set itself - insertion is LocalMapper work. -/
def System.trackCore (s : System) (f : Frame) : System × Option Pose :=
  match Tracking.step s.trackState f with
  | (st, none) => ({ s with trackState := st }, none)
  | (st, some pos) =>
      if f.needKeyframe ∧ s.mbOnlyTracking = false then
        ({ s with trackState := st, lmQueue := s.lmQueue ++ [f.newKeyframe] }, some pos)
      else ({ s with trackState := st }, some pos)

/-- Modelled from the spec: a full tracking entry-point call - at the frame
boundary the pending mode-switch flags and then a pending reset request are
applied, and the Tracker runs synchronously in the caller's thread. -/
def System.trackStep (s : System) (f : Frame) : System × Option Pose :=
  (s.applyModeChange.applyReset).trackCore f

/-- System.TrackMonocular (System.h line 100): processes one monocular frame
and returns the camera pose, empty if tracking fails.  The image payload and
timestamp are abstracted into the Frame oracle fields. -/
def System.TrackMonocular (s : System) (f : Frame) : System × Option Pose :=
  s.trackStep f

/-- System.TrackStereo (System.h line 89): processes one synchronized
rectified stereo pair; the image payloads and timestamp are abstracted into
the Frame oracle fields. -/
def System.TrackStereo (s : System) (f : Frame) : System × Option Pose :=
  s.trackStep f

/-- System.TrackRGBD (System.h line 95): processes one depth-registered
frame; the payloads and timestamp are abstracted into the Frame oracle
fields. -/
def System.TrackRGBD (s : System) (f : Frame) : System × Option Pose :=
  s.trackStep f

/-- A sequence of tracking calls, threading the System state. -/
def System.trackSeq (s : System) (fs : List Frame) : System :=
  fs.foldl (fun st f => (st.trackStep f).1) s

/-- Modelled from the spec: one LocalMapper loop iteration (section 4.2).
The finish flag is checked every iteration and honored at the iteration
boundary; a stop request pauses the loop; otherwise a queued keyframe is
popped, inserted into the Map (covisibility update), registered with the
PlaceRecognitionIndex, and forwarded FIFO to the LoopCloser queue.
Triangulation, culling and local bundle adjustment consume external oracles
and do not affect the properties below. -/
def System.localMapperStep (s : System) : System :=
  if s.lmFinished then s
  else if s.lmFinishRequested then { s with lmFinished := true }
  else if s.lmStopRequested then { s with lmStopped := true }
  else
    match s.lmQueue with
    | [] => s
    | kf :: rest =>
        { s with
          lmQueue := rest,
          mpMap := s.mpMap.insertKeyFrame kf,
          mpKeyFrameDatabase := s.mpKeyFrameDatabase.add kf,
          lcQueue := s.lcQueue ++ [kf] }

/-- Modelled from the spec: one LoopCloser loop iteration (section 4.3).
The finish flag is checked every iteration; otherwise a queued keyframe is
popped and loop-candidate detection is run; temporal consistency, Sim3
verification and the correction consume external oracles and are outside the
properties below. -/
def System.loopCloserStep (s : System) : System :=
  if s.lcFinished then s
  else if s.lcFinishRequested then { s with lcFinished := true }
  else
    match s.lcQueue with
    | [] => s
    | _ :: rest => { s with lcQueue := rest }

/-- Modelled from the spec: System.Shutdown (System.h lines 130-133) sets the
finish-requested flag on every background thread, then blocks until each
thread observes it at its next loop-iteration boundary and exits its loop. -/
def System.Shutdown (s : System) : System :=
  let s1 := { s with shutdown_requested := true,
                     lmFinishRequested := true, lcFinishRequested := true }
  s1.localMapperStep.loopCloserStep

/-- System.SaveMap (System.h line 136): wraps Map Serialize; the file target
is abstracted to the produced snapshot value. -/
def System.SaveMap (s : System) : MapSnapshot :=
  s.mpMap.Serialize

/-- System.LoadMap (System.h line 138): wraps Map Deserialize and installs
the rebuilt Map and PlaceRecognitionIndex; an incompatible snapshot fails the
load explicitly. -/
def System.LoadMap (s : System) (snap : MapSnapshot) : Option System :=
  match Map.Deserialize snap with
  | some (m, db) => some { s with mpMap := m, mpKeyFrameDatabase := db }
  | none => none

/-- The externally observable components of the System: Map,
PlaceRecognitionIndex, Tracker state, localization-only flag, and the two
pipeline queues. -/
def System.observables (s : System) :
    Map × KeyFrameDatabase × Tracking.State × Bool × List Keyframe × List Keyframe :=
  (s.mpMap, s.mpKeyFrameDatabase, s.trackState, s.mbOnlyTracking, s.lmQueue, s.lcQueue)

/-! Helper lemmas. -/

theorem erase_not_in_bucket (db : KeyFrameDatabase) (kf : Keyframe) (w : Nat) :
    kf.id ∉ (db.erase kf).bucketOf w := by
  unfold KeyFrameDatabase.bucketOf
  cases h : (db.erase kf).buckets.find? (fun p => p.1 = w) with
  | none => simp
  | some p =>
      have hp := List.mem_of_find?_eq_some h
      simp only [KeyFrameDatabase.erase] at hp
      rcases List.mem_map.1 hp with ⟨q, _, rfl⟩
      intro hmem
      have := (List.mem_filter.1 hmem).2
      simp at this

theorem mem_insertRanked (x a : Nat × Nat) (l : List (Nat × Nat)) :
    a ∈ insertRanked x l ↔ a = x ∨ a ∈ l := by
  induction l with
  | nil => simp [insertRanked]
  | cons y ys ih =>
      simp only [insertRanked]
      split
      · simp [List.mem_cons]
      · simp only [List.mem_cons, ih]
        tauto

theorem mem_rankDesc (a : Nat × Nat) (l : List (Nat × Nat)) :
    a ∈ rankDesc l ↔ a ∈ l := by
  induction l with
  | nil => simp [rankDesc]
  | cons y ys ih =>
      simp only [rankDesc, mem_insertRanked, List.mem_cons, ih]

/-- C6: for every keyframe kf and every PlaceRecognitionIndex state, Add(kf)
followed by Erase(kf) leaves no visual-word bucket of the index referencing
kf. -/
theorem add_erase_leaves_no_bucket_reference (db : KeyFrameDatabase) (kf : Keyframe) (w : Nat) :
    kf.id ∉ ((db.add kf).erase kf).bucketOf w :=
  erase_not_in_bucket (db.add kf) kf w

/-- Witness for C6 at a concrete index, keyframe and word. -/
theorem add_erase_leaves_no_bucket_reference_wit :
    (7 : Nat) ∉ ((KeyFrameDatabase.empty.add ⟨7, [1, 2], []⟩).erase ⟨7, [1, 2], []⟩).bucketOf 1 :=
  add_erase_leaves_no_bucket_reference KeyFrameDatabase.empty ⟨7, [1, 2], []⟩ 1

/-- C7: for every query keyframe, exclusion set and threshold,
DetectLoopCandidates returns only keyframes sharing at least minCommonWords
common visual words with the query, and never returns a member of the
exclusion set. -/
theorem detectLoopCandidates_threshold_and_exclusion
    (db : KeyFrameDatabase) (kf : Keyframe) (excludeSet : List Nat) (minCommonWords : Nat)
    (kid : Nat) (hmem : kid ∈ db.DetectLoopCandidates kf excludeSet minCommonWords) :
    minCommonWords ≤ db.sharedWords kf.words kid ∧ kid ∉ excludeSet := by
  unfold KeyFrameDatabase.DetectLoopCandidates at hmem
  rcases List.mem_map.1 hmem with ⟨pair, hpair, rfl⟩
  rw [mem_rankDesc] at hpair
  rcases List.mem_filterMap.1 hpair with ⟨kid0, _, heq⟩
  split at heq
  · rename_i hcond
    injection heq with h
    subst h
    exact ⟨hcond.2, hcond.1⟩
  · exact absurd heq (by simp)

/-- Witness for C7 at a concrete index, query, exclusion set and threshold. -/
theorem detectLoopCandidates_threshold_and_exclusion_wit :
    (5 ∈ (KeyFrameDatabase.mk [(1, [5]), (2, [5])]).DetectLoopCandidates ⟨9, [1, 2], []⟩ [] 2)
  ∧ (2 ≤ (KeyFrameDatabase.mk [(1, [5]), (2, [5])]).sharedWords [1, 2] 5 ∧ 5 ∉ ([] : List Nat)) :=
  ⟨by decide,
   detectLoopCandidates_threshold_and_exclusion
     (KeyFrameDatabase.mk [(1, [5]), (2, [5])]) ⟨9, [1, 2], []⟩ [] 2 5 (by decide)⟩

/-- C5: for every pair of landmark ids old and new with old distinct from
new, Replace(old, new) removes old entirely from the Map - from the landmark
collection and from every keyframe observation set - re-points every keyframe
that observed old to observe new, and leaves no keyframe with duplicate
observations of new. -/
theorem Replace_removes_old_and_repoints (m : Map) (oldId newId : Nat) (hne : oldId ≠ newId) :
    (∀ lm ∈ (m.Replace oldId newId).landmarks, lm.id ≠ oldId)
  ∧ (∀ kf ∈ (m.Replace oldId newId).keyframes, oldId ∉ kf.obs)
  ∧ (∀ kf ∈ m.keyframes, oldId ∈ kf.obs →
      ∃ kf' ∈ (m.Replace oldId newId).keyframes, kf'.id = kf.id ∧ newId ∈ kf'.obs)
  ∧ (∀ kf ∈ (m.Replace oldId newId).keyframes, kf.obs.count newId ≤ 1) := by
  refine ⟨?_, ?_, ?_, ?_⟩
  · intro lm hlm
    simp only [Map.Replace] at hlm
    rcases List.mem_map.1 hlm with ⟨lm0, h0, rfl⟩
    have h2 : lm0.id ≠ oldId := by simpa using (List.mem_filter.1 h0).2
    split
    · exact h2
    · exact h2
  · intro kf hkf
    simp only [Map.Replace] at hkf
    rcases List.mem_map.1 hkf with ⟨kf0, _, rfl⟩
    intro hmem
    simp only [replaceObs] at hmem
    rw [List.mem_dedup] at hmem
    rcases List.mem_map.1 hmem with ⟨x, _, hfx⟩
    by_cases hxo : x = oldId
    · rw [if_pos hxo] at hfx
      exact hne hfx.symm
    · rw [if_neg hxo] at hfx
      exact hxo hfx
  · intro kf hkf hold
    refine ⟨{ kf with obs := replaceObs oldId newId kf.obs }, ?_, rfl, ?_⟩
    · simp only [Map.Replace]
      exact List.mem_map.2 ⟨kf, hkf, rfl⟩
    · simp only [replaceObs]
      rw [List.mem_dedup]
      exact List.mem_map.2 ⟨oldId, hold, by simp⟩
  · intro kf hkf
    simp only [Map.Replace] at hkf
    rcases List.mem_map.1 hkf with ⟨kf0, _, rfl⟩
    have hnd : (replaceObs oldId newId kf0.obs).Nodup := by
      simp only [replaceObs]
      exact List.nodup_dedup _
    exact List.nodup_iff_count_le_one.1 hnd newId

/-- Witness for C5 at a concrete Map and landmark pair. -/
theorem Replace_removes_old_and_repoints_wit :
    ((1 : Nat) ≠ 2)
  ∧ ∀ lm ∈ ((Map.mk [⟨3, [0], [1]⟩] [⟨1, [3]⟩, ⟨2, []⟩] [] 0).Replace 1 2).landmarks,
      lm.id ≠ 1 :=
  ⟨by decide,
   (Replace_removes_old_and_repoints (Map.mk [⟨3, [0], [1]⟩] [⟨1, [3]⟩, ⟨2, []⟩] [] 0)
     1 2 (by decide)).1⟩

/-- C4: for every Map, SaveMap followed by LoadMap succeeds and yields a Map
with exactly the same keyframes, landmarks and covisibility edges (hence the
same counts - a lossless round-trip), with the PlaceRecognitionIndex rebuilt
from scratch from the loaded keyframes. -/
theorem saveLoad_roundtrip_lossless (s : System) :
    ∃ s', s.LoadMap s.SaveMap = some s'
      ∧ s'.mpMap.keyframes = s.mpMap.keyframes
      ∧ s'.mpMap.landmarks = s.mpMap.landmarks
      ∧ s'.mpMap.covisEdges = s.mpMap.covisEdges
      ∧ s'.mpMap.keyframes.length = s.mpMap.keyframes.length
      ∧ s'.mpMap.landmarks.length = s.mpMap.landmarks.length
      ∧ s'.mpMap.covisEdges.length = s.mpMap.covisEdges.length
      ∧ s'.mpKeyFrameDatabase = rebuildDatabase s.mpMap.keyframes :=
  ⟨{ s with mpMap := ⟨s.mpMap.keyframes, s.mpMap.landmarks, s.mpMap.covisEdges, 0⟩,
            mpKeyFrameDatabase := rebuildDatabase s.mpMap.keyframes },
   rfl, rfl, rfl, rfl, rfl, rfl, rfl, rfl⟩

theorem Shutdown_fields (s : System) :
    s.Shutdown = { s with shutdown_requested := true, lmFinishRequested := true,
                          lcFinishRequested := true, lmFinished := true, lcFinished := true } := by
  obtain ⟨m, db, ts, ot, r, a, d, lq, cq, sp, st, fr, fin, cfr, cfin, sd⟩ := s
  cases fin <;> cases cfin <;> rfl

theorem localMapperStep_of_finishRequested (t : System)
    (h : t.lmFinishRequested = true) : t.localMapperStep.lmFinished = true := by
  unfold System.localMapperStep
  split
  · assumption
  · simp [h]

theorem loopCloserStep_of_finishRequested (t : System)
    (h : t.lcFinishRequested = true) : t.loopCloserStep.lcFinished = true := by
  unfold System.loopCloserStep
  split
  · assumption
  · simp [h]

/-- C3: Shutdown is idempotent (a second Shutdown changes nothing), each
background loop observes the finish request within one loop iteration even
with a nonempty keyframe queue (bounded termination under continuous
keyframe production), and after Shutdown returns both background steps are
the identity, so no further Map mutation occurs; Shutdown itself leaves the
Map untouched. -/
theorem Shutdown_idempotent_bounded_no_mutation (s t : System)
    (ht1 : t.lmFinishRequested = true) (ht2 : t.lcFinishRequested = true) :
    s.Shutdown.Shutdown = s.Shutdown
  ∧ s.Shutdown.lmFinished = true
  ∧ s.Shutdown.lcFinished = true
  ∧ s.Shutdown.localMapperStep = s.Shutdown
  ∧ s.Shutdown.loopCloserStep = s.Shutdown
  ∧ s.Shutdown.mpMap = s.mpMap
  ∧ t.localMapperStep.lmFinished = true
  ∧ t.loopCloserStep.lcFinished = true := by
  refine ⟨?_, ?_, ?_, ?_, ?_, ?_, ?_, ?_⟩
  · rw [Shutdown_fields, Shutdown_fields]
  · rw [Shutdown_fields]
  · rw [Shutdown_fields]
  · rw [Shutdown_fields]
    rfl
  · rw [Shutdown_fields]
    rfl
  · rw [Shutdown_fields]
  · exact localMapperStep_of_finishRequested t ht1
  · exact loopCloserStep_of_finishRequested t ht2

/-- Witness for C3 at concrete states; the second state has a nonempty
LocalMapper queue, showing the loop still finishes in one iteration. -/
theorem Shutdown_idempotent_bounded_no_mutation_wit :
    ({ System.init with lmFinishRequested := true, lcFinishRequested := true, lmQueue := [⟨0, [], []⟩] } : System).lmFinishRequested = true
  ∧ ({ System.init with lmFinishRequested := true, lcFinishRequested := true, lmQueue := [⟨0, [], []⟩] } : System).lcFinishRequested = true
  ∧ System.init.Shutdown.Shutdown = System.init.Shutdown :=
  ⟨rfl, rfl,
   (Shutdown_idempotent_bounded_no_mutation System.init
     { System.init with lmFinishRequested := true, lcFinishRequested := true, lmQueue := [⟨0, [], []⟩] } rfl rfl).1⟩

theorem applyModeChange_mbReset (s : System) : s.applyModeChange.mbReset = s.mbReset := by
  obtain ⟨m, db, ts, ot, r, a, d, lq, cq, sp, st, fr, fin, cfr, cfin, sd⟩ := s
  cases a <;> cases d <;> rfl

theorem applyReset_of_mbReset (s : System) (h : s.mbReset = true) :
    s.applyReset.mpMap = emptyMap
  ∧ s.applyReset.mpKeyFrameDatabase = KeyFrameDatabase.empty
  ∧ s.applyReset.trackState = Tracking.State.NOT_INITIALIZED := by
  simp [System.applyReset, h]

/-- C2: for every sequence of tracking calls from the post-construction
state followed by a Reset request, the state observed at the next frame
boundary (after the pending flags are applied) has Map contents,
PlaceRecognitionIndex contents and Tracker state equal to the
post-construction state; the request itself changes none of these
components, a pending reset moves the Tracker to NOT_INITIALIZED from any
state, and a tracking call after Reset runs on the reset-applied state. -/
theorem reset_restores_post_construction_state (fs : List Frame) (s : System) (f : Frame) :
    ((System.init.trackSeq fs).Reset.applyModeChange.applyReset).mpMap = System.init.mpMap
  ∧ ((System.init.trackSeq fs).Reset.applyModeChange.applyReset).mpKeyFrameDatabase
      = System.init.mpKeyFrameDatabase
  ∧ ((System.init.trackSeq fs).Reset.applyModeChange.applyReset).trackState
      = Tracking.State.NOT_INITIALIZED
  ∧ (s.Reset.applyModeChange.applyReset).trackState = Tracking.State.NOT_INITIALIZED
  ∧ s.Reset.mpMap = s.mpMap
  ∧ s.Reset.mpKeyFrameDatabase = s.mpKeyFrameDatabase
  ∧ s.Reset.trackState = s.trackState
  ∧ s.Reset.trackStep f = (s.Reset.applyModeChange.applyReset).trackCore f := by
  have hseq : ((System.init.trackSeq fs).Reset.applyModeChange).mbReset = true := by
    rw [applyModeChange_mbReset]
    rfl
  have hs : (s.Reset.applyModeChange).mbReset = true := by
    rw [applyModeChange_mbReset]
    rfl
  refine ⟨?_, ?_, ?_, ?_, rfl, rfl, rfl, rfl⟩
  · exact (applyReset_of_mbReset _ hseq).1
  · exact (applyReset_of_mbReset _ hseq).2.1
  · exact (applyReset_of_mbReset _ hseq).2.2
  · exact (applyReset_of_mbReset _ hs).2.2

theorem applyModeChange_id (s : System) (h2 : s.mbActivateLocalizationMode = false)
    (h3 : s.mbDeactivateLocalizationMode = false) : s.applyModeChange = s := by
  simp [System.applyModeChange, h2, h3]

theorem applyReset_id (s : System) (h : s.mbReset = false) : s.applyReset = s := by
  simp [System.applyReset, h]

theorem step_of_fails (st : Tracking.State) (f : Frame) (h : trackFails st f = true) :
    (Tracking.step st f).2 = none
  ∧ ((Tracking.step st f).1 = Tracking.State.NOT_INITIALIZED
      ∨ (Tracking.step st f).1 = Tracking.State.LOST) := by
  cases st <;> simp [trackFails] at h <;> simp [Tracking.step, h]

theorem step_success (st : Tracking.State) (g : Frame)
    (hst : st = Tracking.State.NOT_INITIALIZED ∨ st = Tracking.State.LOST)
    (hg1 : g.initOk = true) (hg2 : g.relocOk = true) :
    Tracking.step st g = (Tracking.State.OK, some g.pose) := by
  rcases hst with rfl | rfl <;> simp [Tracking.step, hg1, hg2]

theorem trackCore_snd (s : System) (f : Frame) :
    (s.trackCore f).2 = (Tracking.step s.trackState f).2 := by
  unfold System.trackCore
  rcases h : Tracking.step s.trackState f with ⟨st, r⟩
  cases r
  · rfl
  · dsimp only
    split <;> rfl

theorem trackCore_fst (s : System) (f : Frame) :
    (s.trackCore f).1.trackState = (Tracking.step s.trackState f).1
  ∧ (s.trackCore f).1.mbOnlyTracking = s.mbOnlyTracking
  ∧ (s.trackCore f).1.mbReset = s.mbReset
  ∧ (s.trackCore f).1.mbActivateLocalizationMode = s.mbActivateLocalizationMode
  ∧ (s.trackCore f).1.mbDeactivateLocalizationMode = s.mbDeactivateLocalizationMode
  ∧ (s.trackCore f).1.mpMap = s.mpMap := by
  unfold System.trackCore
  rcases h : Tracking.step s.trackState f with ⟨st, r⟩
  cases r
  · exact ⟨rfl, rfl, rfl, rfl, rfl, rfl⟩
  · dsimp only
    split <;> exact ⟨rfl, rfl, rfl, rfl, rfl, rfl⟩

theorem TrackMonocular_eq_trackCore (s : System) (h1 : s.mbReset = false)
    (h2 : s.mbActivateLocalizationMode = false)
    (h3 : s.mbDeactivateLocalizationMode = false) (f : Frame) :
    s.TrackMonocular f = s.trackCore f := by
  show (s.applyModeChange.applyReset).trackCore f = s.trackCore f
  rw [applyModeChange_id s h2 h3, applyReset_id s h1]

/-- C1: for every tracking call (TrackMonocular, TrackStereo, TrackRGBD), a
per-frame tracking failure (failed initialization, insufficient matches,
failed relocalization) is signaled by the explicit empty pose result, never
a zero pose - and the call is a total function, never a hard failure; a
subsequent tracking call from the resulting state recovers and returns a
pose when the oracle succeeds. -/
theorem tracking_failure_returns_empty_pose (s : System) (f g : Frame)
    (h1 : s.mbReset = false) (h2 : s.mbActivateLocalizationMode = false)
    (h3 : s.mbDeactivateLocalizationMode = false)
    (hfail : trackFails s.trackState f = true)
    (hg1 : g.initOk = true) (hg2 : g.relocOk = true) :
    (s.TrackMonocular f).2 = none
  ∧ (s.TrackStereo f).2 = none
  ∧ (s.TrackRGBD f).2 = none
  ∧ (s.TrackMonocular f).2 ≠ some zeroPose
  ∧ ((s.TrackMonocular f).1.TrackMonocular g).2 = some g.pose := by
  have hTm : s.TrackMonocular f = s.trackCore f :=
    TrackMonocular_eq_trackCore s h1 h2 h3 f
  have hfl := step_of_fails s.trackState f hfail
  have hres : (s.TrackMonocular f).2 = none := by
    rw [hTm, trackCore_snd s f, hfl.1]
  refine ⟨hres, hres, hres, ?_, ?_⟩
  · rw [hres]
    simp
  · have hflags := trackCore_fst s f
    have hs1 : (s.TrackMonocular f).1 = (s.trackCore f).1 := by rw [hTm]
    have e1 : (s.TrackMonocular f).1.mbReset = false := by
      rw [hs1, hflags.2.2.1]
      exact h1
    have e2 : (s.TrackMonocular f).1.mbActivateLocalizationMode = false := by
      rw [hs1, hflags.2.2.2.1]
      exact h2
    have e3 : (s.TrackMonocular f).1.mbDeactivateLocalizationMode = false := by
      rw [hs1, hflags.2.2.2.2.1]
      exact h3
    have hTm1 : (s.TrackMonocular f).1.TrackMonocular g = (s.TrackMonocular f).1.trackCore g :=
      TrackMonocular_eq_trackCore _ e1 e2 e3 g
    rw [hTm1, trackCore_snd]
    have hst : (s.TrackMonocular f).1.trackState = (Tracking.step s.trackState f).1 := by
      rw [hs1]
      exact hflags.1
    rw [hst, step_success _ g hfl.2 hg1 hg2]

/-- Witness for C1: from the fresh system, a frame whose initialization
oracle fails yields the empty pose result. -/
theorem tracking_failure_returns_empty_pose_wit :
    trackFails System.init.trackState ⟨[], false, false, false, [], false, ⟨0, [], []⟩⟩ = true
  ∧ (System.init.TrackMonocular ⟨[], false, false, false, [], false, ⟨0, [], []⟩⟩).2 = none :=
  ⟨rfl,
   (tracking_failure_returns_empty_pose System.init
     ⟨[], false, false, false, [], false, ⟨0, [], []⟩⟩
     ⟨[], true, true, true, [], false, ⟨0, [], []⟩⟩ rfl rfl rfl rfl rfl rfl).1⟩

/-- C8: ActivateLocalizationMode, DeactivateLocalizationMode and Reset only
record flags: none of the observable components (Map,
PlaceRecognitionIndex, Tracker state, localization-only mode, queues)
changes at the moment of the call, and a background LocalMapper iteration
behaves observably the same on the flagged state; each request takes effect
only at the next safe point - the mode flags at the next frame boundary via
applyModeChange, the reset via applyReset. -/
theorem mode_and_reset_requests_deferred (s : System)
    (hd : s.mbDeactivateLocalizationMode = false) :
    s.ActivateLocalizationMode.observables = s.observables
  ∧ s.DeactivateLocalizationMode.observables = s.observables
  ∧ s.Reset.observables = s.observables
  ∧ s.ActivateLocalizationMode.localMapperStep.observables = s.localMapperStep.observables
  ∧ s.Reset.localMapperStep.observables = s.localMapperStep.observables
  ∧ (s.ActivateLocalizationMode.applyModeChange).mbOnlyTracking = true
  ∧ (s.DeactivateLocalizationMode.applyModeChange).mbOnlyTracking = false
  ∧ (s.Reset.applyReset).trackState = Tracking.State.NOT_INITIALIZED
  ∧ (s.Reset.applyReset).mpMap = emptyMap := by
  refine ⟨rfl, rfl, rfl, ?_, ?_, ?_, ?_, rfl, rfl⟩
  · obtain ⟨m, db, ts, ot, r, a, d, lq, cq, sp, st, fr, fin, cfr, cfin, sd⟩ := s
    cases fin <;> cases fr <;> cases sp <;> cases lq <;> rfl
  · obtain ⟨m, db, ts, ot, r, a, d, lq, cq, sp, st, fr, fin, cfr, cfin, sd⟩ := s
    cases fin <;> cases fr <;> cases sp <;> cases lq <;> rfl
  · obtain ⟨m, db, ts, ot, r, a, d, lq, cq, sp, st, fr, fin, cfr, cfin, sd⟩ := s
    cases d
    · rfl
    · simp at hd
  · obtain ⟨m, db, ts, ot, r, a, d, lq, cq, sp, st, fr, fin, cfr, cfin, sd⟩ := s
    cases a <;> rfl

/-- Witness for C8 at the fresh system state. -/
theorem mode_and_reset_requests_deferred_wit :
    System.init.mbDeactivateLocalizationMode = false
  ∧ System.init.ActivateLocalizationMode.observables = System.init.observables :=
  ⟨rfl, (mode_and_reset_requests_deferred System.init rfl).1⟩

/-- C9: while the localization-only mode flag is active (and no other
request is pending), a tracking call still returns exactly the pose the
tracking state machine estimates, pushes nothing onto the LocalMapper
queue, leaves the Map keyframe set unchanged, and stays in
localization-only mode. -/
theorem localization_mode_preserves_keyframes (s : System) (f : Frame)
    (hmode : s.mbOnlyTracking = true) (h1 : s.mbReset = false)
    (h2 : s.mbActivateLocalizationMode = false)
    (h3 : s.mbDeactivateLocalizationMode = false) :
    (s.TrackMonocular f).2 = (Tracking.step s.trackState f).2
  ∧ (s.TrackMonocular f).1.lmQueue = s.lmQueue
  ∧ (s.TrackMonocular f).1.mpMap.keyframes = s.mpMap.keyframes
  ∧ (s.TrackMonocular f).1.mbOnlyTracking = true := by
  have hTm : s.TrackMonocular f = s.trackCore f :=
    TrackMonocular_eq_trackCore s h1 h2 h3 f
  have hq : (s.trackCore f).1.lmQueue = s.lmQueue := by
    unfold System.trackCore
    rcases h : Tracking.step s.trackState f with ⟨st, r⟩
    cases r
    · rfl
    · dsimp only
      rw [if_neg]
      intro hc
      rw [hmode] at hc
      exact absurd hc.2 (by simp)
  refine ⟨?_, ?_, ?_, ?_⟩
  · rw [hTm]
    exact trackCore_snd s f
  · rw [hTm]
    exact hq
  · rw [hTm, (trackCore_fst s f).2.2.2.2.2]
  · rw [hTm, (trackCore_fst s f).2.1]
    exact hmode

/-- Witness for C9: in localization-only mode a frame whose keyframe
heuristic fires still adds nothing to the LocalMapper queue. -/
theorem localization_mode_preserves_keyframes_wit :
    ({ System.init with mbOnlyTracking := true } : System).mbOnlyTracking = true
  ∧ (({ System.init with mbOnlyTracking := true } : System).TrackMonocular ⟨[], true, true, true, [], true, ⟨1, [], []⟩⟩).1.lmQueue
      = ({ System.init with mbOnlyTracking := true } : System).lmQueue :=
  ⟨rfl,
   (localization_mode_preserves_keyframes { System.init with mbOnlyTracking := true }
     ⟨[], true, true, true, [], true, ⟨1, [], []⟩⟩ rfl rfl rfl rfl).2.1⟩

end ORB_SLAM2
